import Mathlib

/-!
Shallow embedding of the event-triggered agent orchestration and recovery
engine of the optics-framework repository, together with proofs of the
specified properties.

Strings are mostly handled through their character lists so that the
prefix/suffix/strip manipulations of the Python source can be reasoned
about structurally.  External collaborators (the inference endpoint, the
JSON decoder of the standard library, the event bus delivery) appear as
parameters or as entries in an effect trace, exactly at the call sites
where the source hands off to them.
-/

/-- JSON-like values, as produced by decoding model output
(json.loads in the source).  Python dicts keep insertion order, so
objects are ordered association lists. -/
inductive JValue where
  | null : JValue
  | bool (b : Bool) : JValue
  | num (n : Int) : JValue
  | str (s : String) : JValue
  | arr (elems : List JValue) : JValue
  | obj (fields : List (String × JValue)) : JValue

/-- Lookup in an ordered association list; models Python dict.get(k)
(first binding wins, as dict keys are unique and ordered). -/
def dictGet {β : Type} (d : List (String × β)) (k : String) : Option β :=
  match d with
  | [] => none
  | (k', v) :: rest => if k' = k then some v else dictGet rest k

/-- Python dict assignment d[k] = v: replaces the value of an existing
key in place, otherwise appends the binding at the end. -/
def dictSet {β : Type} (d : List (String × β)) (k : String) (v : β) : List (String × β) :=
  match d with
  | [] => [(k, v)]
  | (k', v') :: rest => if k' = k then (k, v) :: rest else (k', v') :: dictSet rest k v

/-- Characters removed by Python str.strip(): exactly the characters on
which str.isspace() is true (ASCII whitespace, the C1 separator and NEL
controls, and the Unicode space characters). -/
def pyWsChars : List Char :=
  ['\t', '\n', '\x0b', '\x0c', '\r', '\x1c', '\x1d', '\x1e', '\x1f', ' ',
   '\x85', '\xa0', '\u1680', '\u2000', '\u2001', '\u2002', '\u2003', '\u2004',
   '\u2005', '\u2006', '\u2007', '\u2008', '\u2009', '\u200a', '\u2028',
   '\u2029', '\u202f', '\u205f', '\u3000']

/-- Whitespace test of Python str.strip(). -/
def isPyWs (c : Char) : Bool :=
  pyWsChars.contains c

/-- Right strip: drop trailing whitespace characters. -/
def rstripL (l : List Char) : List Char :=
  (l.reverse.dropWhile isPyWs).reverse

/-- Python str.strip() on character lists: drop trailing then leading
whitespace (the order does not matter; this order eases the proofs). -/
def pyStripL (l : List Char) : List Char :=
  (rstripL l).dropWhile isPyWs

/-- Python str.startswith(p) on character lists. -/
def startsWithL (p l : List Char) : Bool :=
  match p, l with
  | [], _ => true
  | _ :: _, [] => false
  | a :: ps, c :: cs => a == c && startsWithL ps cs

/-- Python substring membership test (pat in s) on character lists. -/
def containsSubL (pat : List Char) (l : List Char) : Bool :=
  match l with
  | [] => pat.isEmpty
  | c :: cs => startsWithL pat (c :: cs) || containsSubL pat cs

/-- Python str.startswith on strings, via character lists. -/
def pyStartsWith (s p : String) : Bool :=
  startsWithL p.toList s.toList

/-- Truthiness of an optional string (Python: None and the empty string
are falsy). -/
def truthyStr (s : Option String) : Bool :=
  match s with
  | none => false
  | some s => s ≠ ""

/-- ErrorHandler.classify_failure from error_handler.py: classify a
structured error code by its prefix. -/
def classify_failure (error_code : String) : String :=
  if pyStartsWith error_code "E0201" || pyStartsWith error_code "X0201" then
    "screen_popup"
  else if pyStartsWith error_code "E0401" || pyStartsWith error_code "X0401" then
    "keyword_execution"
  else if pyStartsWith error_code "E0101" then
    "driver_issue"
  else
    "general_error"

/-- Context info dict passed to ErrorHandler.handle_error; the code
consults exactly the keys screenshot_path and page_source. -/
structure ContextInfo where
  screenshot_path : Option String
  page_source : Option String

/-- One suggestion record from the decoded model output, as consulted by
the dispatch loops: step.get("action") and step.get("target", empty dict).
The target dict is an ordered association list. -/
structure Step where
  action : Option String
  target : List (String × JValue)

/-- Behaviour of one registered keyword callable when invoked with one
argument: it either returns or raises. -/
def KwBehavior : Type := Option JValue → Except String Unit

/-- Outcome of one iteration of the dispatch loop inside
ErrorHandler.handle_error on one step.  The step reads action and
target; when the action is truthy and present in the keyword map the
loop halts: it invokes the keyword with target["element_name"] and
returns True, while a missing element_name key (KeyError) or a raising
keyword escapes to the surrounding except block, which yields False.
Otherwise (none means the loop continues) the action is only logged.
A halt result pairs the returned boolean with the (keyword, argument)
invocations performed. -/
def popupStepOutcome (kwMap : List (String × KwBehavior)) (step : Step) :
    Option (Bool × List (String × JValue)) :=
  match step.action with
  | none => none
  | some a =>
    if a = "" then none
    else
      match dictGet kwMap a with
      | none => none
      | some kw =>
        match dictGet step.target "element_name" with
        | none => some (false, [])
        | some v =>
          match kw (some v) with
          | Except.ok _ => some (true, [(a, v)])
          | Except.error _ => some (false, [(a, v)])

/-- The dispatch loop of handle_error over the suggestion list: process
steps in order until one halts the loop; a fully traversed list falls
through to return False with no invocation. -/
def popupDispatchLoop (kwMap : List (String × KwBehavior)) (steps : List Step) :
    Bool × List (String × JValue) :=
  match steps with
  | [] => (false, [])
  | step :: rest =>
    match popupStepOutcome kwMap step with
    | none => popupDispatchLoop kwMap rest
    | some r => r

/-- The page_source lookup of handle_error:
context_info.get("page_source") if context_info else None. -/
def contextPageSource (context_info : Option ContextInfo) : Option String :=
  match context_info with
  | none => none
  | some ci => ci.page_source

/-- ErrorHandler.handle_error from error_handler.py.  The popup step
(PopupHandler.handle_popup: prompt build, inference call, JSON parse) is
an external interaction whose outcome is the popupResult parameter; an
Except.error value stands for any exception it raises.  The result pairs
the returned boolean with the trace of keyword invocations. -/
def handle_error (kwMap : List (String × KwBehavior)) (error_code : String)
    (_error_message : String) (context_info : Option ContextInfo)
    (popupResult : Except String (List Step)) : Bool × List (String × JValue) :=
  let failure_type := classify_failure error_code
  let page_source := contextPageSource context_info
  if failure_type = "screen_popup" && truthyStr page_source then
    match popupResult with
    | Except.error _ => (false, [])
    | Except.ok suggestions => popupDispatchLoop kwMap suggestions
  else
    (false, [])

/-- Opening fence marker removed by the regex in
extract_json_from_llm_response (the alternative matching at the start of
the string only). -/
def fenceOpen : List Char := ['`', '`', '`', 'j', 's', 'o', 'n', '\n']

/-- Closing fence marker removed by the regex (the alternative matching
at the end of the string only). -/
def fenceClose : List Char := ['`', '`', '`']

/-- The substitution re.sub of a leading fence-with-json-tag marker and a
trailing fence, applied to an already stripped string (as in the source,
where the argument is raw_response.strip(), so the end-of-string anchor
cannot fire before a trailing newline). -/
def stripJsonFence (s : List Char) : List Char :=
  let s1 := if startsWithL fenceOpen s then s.drop 8 else s
  if fenceClose.isSuffixOf s1 then s1.take (s1.length - 3) else s1

/-- Step 1 of extract_json_from_llm_response: strip whitespace, then
remove the optional fence markers. -/
def cleanedL (raw : List Char) : List Char :=
  stripJsonFence (pyStripL raw)

/-- PopupHandler.extract_json_from_llm_response (textually identical in
AIActionHandler): clean the raw response and hand it to the external
JSON decoder jsonLoads (json.loads); a decode failure is re-raised as a
ValueError with a descriptive message. -/
def extract_json_from_llm_response {J : Type} (jsonLoads : List Char → Except String J)
    (raw_response : List Char) : Except String J :=
  match jsonLoads (cleanedL raw_response) with
  | Except.ok v => Except.ok v
  | Except.error e => Except.error ("Failed to parse JSON: " ++ e)

/-- Wrapping of inner content in the fenced code block format that the
parser strips: opening fence with json language tag, newline-separated
content, trailing closing fence. -/
def wrapJsonFence (content : List Char) : List Char :=
  fenceOpen ++ content ++ ('\n' :: fenceClose)

/-- The target-field predicate of AIActionHandler.perform_ai_action.
In the source it is the condition of the generator expression
next((v for k, v in target.items() if "element" or "text" in k.lower()), None):
by Python operator precedence this parses as
("element") or ("text" in k.lower()), and the left operand is a
non-empty string literal, hence truthy, so the disjunction is truthy for
every key. -/
def targetKeyPred (k : String) : Bool :=
  ("element" ≠ "") || containsSubL "text".toList (k.toList.map Char.toLower)

/-- The argument selected by perform_ai_action for the keyword call: the
value of the first target field satisfying targetKeyPred, None when no
field does (in particular when the target dict is empty). -/
def elementValue (target : List (String × JValue)) : Option JValue :=
  match target.filter (fun kv => targetKeyPred kv.1) with
  | [] => none
  | kv :: _ => some kv.2

/-- The dispatch loop of AIActionHandler.perform_ai_action: unlike the
popup path it does not return after the first hit; it invokes every
suggested action found in the keyword map, always passing elementValue
of the target.  A raising keyword escapes to the surrounding except and
aborts the remaining steps.  The result is the invocation trace. -/
def aiDispatchLoop (kwMap : List (String × KwBehavior)) (steps : List Step) :
    List (String × Option JValue) :=
  match steps with
  | [] => []
  | step :: rest =>
    match step.action with
    | none => aiDispatchLoop kwMap rest
    | some a =>
      if a = "" then aiDispatchLoop kwMap rest
      else
        match dictGet kwMap a with
        | none => aiDispatchLoop kwMap rest
        | some kw =>
          let v := elementValue step.target
          match kw v with
          | Except.ok _ => (a, v) :: aiDispatchLoop kwMap rest
          | Except.error _ => [(a, v)]

/-- AIActionHandler.perform_ai_action: the handle_action step (XML
extraction, prompt, inference, parse) is external and its outcome is the
handleResult parameter; any exception it raises is caught and the method
returns None with no invocation. -/
def perform_ai_action (kwMap : List (String × KwBehavior))
    (handleResult : Except String (List Step)) : List (String × Option JValue) :=
  match handleResult with
  | Except.error _ => []
  | Except.ok suggestion => aiDispatchLoop kwMap suggestion

/-- LLMAgentConfig from models.py (the fields the manager consults). -/
structure LLMAgentConfig where
  enabled : Bool
  trigger : String

/-- Tool descriptor from models.py. -/
structure Tool where
  name : String
  description : String
  parameters : List (String × String)
deriving DecidableEq

/-- AgentAction from models.py: a tool name with a parameters dict of
JSON values. -/
structure AgentAction where
  tool_name : String
  parameters : List (String × JValue)

/-- AgentResponse from models.py. -/
structure AgentResponse where
  message : String
  actions : List AgentAction
  requires_human_input : Bool

/-- A capability handler registered for a session: its docstring (used
for the tool description) and its behaviour when invoked with positional
and keyword arguments.  Synchronous and asynchronous handlers are both
awaited to completion by the dispatcher, so one behaviour type covers
both. -/
structure Handler where
  doc : Option String
  fn : List JValue → List (String × JValue) → Except String Unit

/-- Mutable state of the LLMAgentManager singleton: registered configs,
instantiated client bindings, the trigger map and the per-session tool
maps (all Python dicts, hence ordered association lists). -/
structure ManagerState where
  configs : List (String × LLMAgentConfig)
  agents : List (String × Unit)
  trigger_map : List (String × List String)
  session_tools : List (String × List (String × Handler))

/-- LLMAgentManager.register_agent: a disabled config is not registered
at all; otherwise the config and a client binding are stored and the
name is appended to the trigger list of config.trigger. -/
def registerAgent (st : ManagerState) (name : String) (config : LLMAgentConfig) :
    ManagerState :=
  if !config.enabled then st
  else
    { st with
      configs := dictSet st.configs name config
      agents := dictSet st.agents name ()
      trigger_map := dictSet st.trigger_map config.trigger
        (((dictGet st.trigger_map config.trigger).getD []) ++ [name]) }

/-- Agent names registered for a trigger key (trigger_map.get(trigger, [])). -/
def agentsFor (st : ManagerState) (trigger : String) : List String :=
  (dictGet st.trigger_map trigger).getD []

/-- LLMAgentManager.register_tools_for_session: stores the keyword map
for the session (last write wins).  The push of public tools into each
client binding does not affect the manager state modelled here. -/
def registerToolsForSession (st : ManagerState) (session_id : String)
    (keyword_map : List (String × Handler)) : ManagerState :=
  { st with session_tools := dictSet st.session_tools session_id keyword_map }

/-- The reserved pause control tool appended by _get_available_tools. -/
def pauseTool : Tool :=
  { name := "pause_execution"
    description := "Pause the test execution"
    parameters := [("reason", "str")] }

/-- The reserved resume control tool appended by _get_available_tools. -/
def resumeTool : Tool :=
  { name := "resume_execution"
    description := "Resume the test execution"
    parameters := [] }

/-- LLMAgentManager._get_available_tools: empty for unknown sessions;
otherwise one descriptor per non-private handler (params is always left
empty by the source) followed by the two reserved control tools. -/
def getAvailableTools (st : ManagerState) (session_id : String) : List Tool :=
  match dictGet st.session_tools session_id with
  | none => []
  | some handlers =>
    ((handlers.filter (fun nh => !pyStartsWith nh.1 "_")).map (fun nh =>
      { name := nh.1
        description := nh.2.doc.getD ("Execute the " ++ nh.1 ++ " function")
        parameters := [] })) ++ [pauseTool, resumeTool]

/-- Observable effects of action processing: commands published on the
event bus, tool invocations (with the exact arguments passed), and the
logged failure conditions. -/
inductive Effect where
  | pauseCmd (session_id : String) (reason : JValue) : Effect
  | resumeCmd (session_id : String) : Effect
  | invoked (tool : String) (args : List JValue) (kwargs : List (String × JValue)) : Effect
  | toolError (tool : String) (msg : String) : Effect
  | toolNotFound (tool : String) : Effect
  | agentError (agent : String) (msg : String) : Effect

/-- Positional arguments for a tool call: parameters.get("args", []),
unpacked by the star operator, which needs a sequence; a non-sequence
value raises (inside the per-action try block). -/
def getCallArgs (params : List (String × JValue)) : Except String (List JValue) :=
  match dictGet params "args" with
  | none => Except.ok []
  | some (JValue.arr l) => Except.ok l
  | some _ => Except.error "TypeError: args is not a sequence"

/-- Keyword arguments for a tool call: parameters.get("kwargs", empty
dict), unpacked by the double-star operator, which needs a mapping. -/
def getCallKwargs (params : List (String × JValue)) : Except String (List (String × JValue)) :=
  match dictGet params "kwargs" with
  | none => Except.ok []
  | some (JValue.obj fields) => Except.ok fields
  | some _ => Except.error "TypeError: kwargs is not a mapping"

/-- One iteration of the action loop in LLMAgentManager._process_actions:
pause and resume publish commands; other names are looked up in the
session tool map, invoked with the extracted args/kwargs (exceptions are
caught and logged per action), and unknown names are logged. -/
def processOneAction (tools : List (String × Handler)) (session_id : String)
    (action : AgentAction) : List Effect :=
  if action.tool_name = "pause_execution" then
    [Effect.pauseCmd session_id
      ((dictGet action.parameters "reason").getD (JValue.str "Paused by LLM agent"))]
  else if action.tool_name = "resume_execution" then
    [Effect.resumeCmd session_id]
  else
    match dictGet tools action.tool_name with
    | none => [Effect.toolNotFound action.tool_name]
    | some h =>
      match getCallArgs action.parameters with
      | Except.error e => [Effect.toolError action.tool_name e]
      | Except.ok args =>
        match getCallKwargs action.parameters with
        | Except.error e => [Effect.toolError action.tool_name e]
        | Except.ok kwargs =>
          match h.fn args kwargs with
          | Except.ok _ => [Effect.invoked action.tool_name args kwargs]
          | Except.error e =>
            [Effect.invoked action.tool_name args kwargs,
             Effect.toolError action.tool_name e]

/-- LLMAgentManager._process_actions: nothing happens for an empty list
or an unregistered session; otherwise every action is processed in list
order (each await runs to completion before the next action starts). -/
def processActions (st : ManagerState) (session_id : String)
    (actions : List AgentAction) : List Effect :=
  match actions with
  | [] => []
  | _ :: _ =>
    match dictGet st.session_tools session_id with
    | none => []
    | some tools => actions.flatMap (processOneAction tools session_id)

/-- LLMAgentManager._execute_agent: the inference call of the client
binding is external, so its outcome per agent is the inference
parameter (Except.error stands for any exception, timeouts included).
The surrounding try/except converts any failure into a logged
agentError effect; a requires_human_input response discards the
actions. -/
def executeAgent (st : ManagerState)
    (inference : String → Except String AgentResponse)
    (session_id : String) (agent_name : String) : List Effect :=
  match dictGet st.agents agent_name with
  | none => []
  | some _ =>
    match inference agent_name with
    | Except.error e => [Effect.agentError agent_name e]
    | Except.ok response =>
      if response.requires_human_input then []
      else processActions st session_id response.actions

/-- Session id extracted from event.extra, with Python truthiness
(missing or empty means no session). -/
def eventSessionId (extra_session_id : Option String) : Option String :=
  match extra_session_id with
  | none => none
  | some s => if s = "" then none else some s

/-- Event fields consulted by LLMAgentManager.on_event; status is the
string value of the status enum. -/
structure Event where
  entity_type : String
  entity_id : String
  name : String
  status : String
  message : String
  extra_session_id : Option String

/-- LLMAgentManager.on_event: build the trigger key, look up the
registered agents, bail out without a session id or without tools, and
otherwise run every matched agent.  asyncio.gather awaits all the agent
tasks; the trace lists the per-agent effects in registration order (the
source gives no cross-agent ordering guarantee, and no claim here
depends on one). -/
def onEvent (st : ManagerState) (inference : String → Except String AgentResponse)
    (event : Event) : List Effect :=
  let trigger := event.entity_type ++ "_" ++ event.status
  let agent_names := (dictGet st.trigger_map trigger).getD []
  match agent_names with
  | [] => []
  | _ :: _ =>
    match eventSessionId event.extra_session_id with
    | none => []
    | some session_id =>
      match getAvailableTools st session_id with
      | [] => []
      | _ :: _ => agent_names.flatMap (executeAgent st inference session_id)

/-- State of one PydanticAIClient consulted by execute: whether the
config is enabled and whether the agent binding was initialized by
register_tools. -/
structure ClientState where
  enabled : Bool
  agentInitialized : Bool

/-- PydanticAIClient.execute from client.py: disabled and uninitialized
clients return fixed responses; otherwise the external agent.run call
(outcome runResult) is awaited, its result is stringified into the
message, and the actions list is the literal empty list (the
_extract_actions helper is never called); any exception is caught and
becomes a requires_human_input response.  Every branch therefore
returns, never raises, and never populates actions. -/
def clientExecute (cs : ClientState) (runResult : Except String String) :
    AgentResponse :=
  if !cs.enabled then
    { message := "LLM Agent is disabled", actions := [], requires_human_input := false }
  else if !cs.agentInitialized then
    { message := "Agent not properly initialized with tools", actions := [],
      requires_human_input := true }
  else
    match runResult with
    | Except.ok response =>
      { message := response, actions := [], requires_human_input := false }
    | Except.error e =>
      { message := "Error executing LLM agent: " ++ e, actions := [],
        requires_human_input := true }

/-- JSON whitespace as skipped by json.loads around a document (the
WHITESPACE pattern of the json module): space, tab, LF, CR only.  This
set is strictly smaller than the set stripped by str.strip(); the
difference is what breaks the fence round-trip. -/
def isJsonWs (c : Char) : Bool :=
  c = ' ' || c = '\t' || c = '\n' || c = '\r'

/-- Strip of leading and trailing JSON whitespace; the result of
json.loads depends only on its input modulo this normalization. -/
def jsonStripL (l : List Char) : List Char :=
  ((l.reverse.dropWhile isJsonWs).reverse).dropWhile isJsonWs

/-- Success value of a parse attempt, forgetting error messages: the
structured value when parsing succeeded, none when it raised. -/
def parseOutcome {J : Type} (r : Except String J) : Option J :=
  match r with
  | Except.ok v => some v
  | Except.error _ => none

/-- Digit-run consumption for the integer-array JSON decoder below. -/
def parseNatDigits (l : List Char) (acc : Nat) : Nat × List Char :=
  match l with
  | [] => (acc, [])
  | c :: rest =>
    if c.isDigit then parseNatDigits rest (acc * 10 + (c.toNat - 48))
    else (acc, c :: rest)

/-- Integer token: an optional minus sign followed by digits. -/
def parseIntTok (l : List Char) : Except String (Int × List Char) :=
  match l with
  | '-' :: c :: rest =>
    if c.isDigit then
      match parseNatDigits rest (c.toNat - 48) with
      | (n, r) => Except.ok (-(n : Int), r)
    else Except.error "Expecting value"
  | c :: rest =>
    if c.isDigit then
      match parseNatDigits rest (c.toNat - 48) with
      | (n, r) => Except.ok ((n : Int), r)
    else Except.error "Expecting value"
  | [] => Except.error "Expecting value"

/-- Elements of an array after the first one: repeatedly a JSON-ws
skipped comma and integer, until the closing bracket.  Fuel bounds the
recursion by the remaining input length. -/
def parseArrayItems (fuel : Nat) (l : List Char) (acc : List Int) :
    Except String (List Int × List Char) :=
  match fuel with
  | 0 => Except.error "Expecting value"
  | fuel + 1 =>
    match l.dropWhile isJsonWs with
    | ']' :: rest => Except.ok (acc.reverse, rest)
    | ',' :: rest =>
      match parseIntTok (rest.dropWhile isJsonWs) with
      | Except.error e => Except.error e
      | Except.ok (v, r) => parseArrayItems fuel r (v :: acc)
    | _ => Except.error "Expecting delimiter"

/-- A JSON decoder agreeing with Python json.loads on the sublanguage of
integer arrays: JSON whitespace may surround the document and separate
tokens, and any character remaining after the document once JSON
whitespace is skipped is rejected as extra data, exactly as the json
module does (its trailing check skips the WHITESPACE pattern, then
requires the end of the string). -/
def parseJsonIntArray (s : List Char) : Except String (List Int) :=
  match s.dropWhile isJsonWs with
  | '[' :: rest =>
    match rest.dropWhile isJsonWs with
    | ']' :: r2 =>
      if (r2.dropWhile isJsonWs).isEmpty then Except.ok []
      else Except.error "Extra data"
    | other =>
      match parseIntTok other with
      | Except.error e => Except.error e
      | Except.ok (v, r) =>
        match parseArrayItems (r.length + 1) r [v] with
        | Except.error e => Except.error e
        | Except.ok (vs, rest2) =>
          if (rest2.dropWhile isJsonWs).isEmpty then Except.ok vs
          else Except.error "Extra data"
  | _ => Except.error "Expecting value"

/-! Helper lemmas. -/

lemma dictGet_dictSet_self {β : Type} (d : List (String × β)) (k : String) (v : β) :
    dictGet (dictSet d k v) k = some v := by
  induction d with
  | nil => simp [dictSet, dictGet]
  | cons hd tl ih =>
    by_cases h : hd.1 = k
    · obtain ⟨k', v'⟩ := hd
      simp only [dictSet]
      simp only at h
      simp [h, dictGet]
    · obtain ⟨k', v'⟩ := hd
      simp only [dictSet]
      simp only at h
      simp [h, dictGet, ih]

lemma startsWithL_ne_head {a b : Char} (hab : a ≠ b) (as bs l : List Char) :
    startsWithL (a :: as) l = true → startsWithL (b :: bs) l = true → False := by
  cases l with
  | nil => intro h1 _; simp [startsWithL] at h1
  | cons c cs =>
    intro h1 h2
    simp only [startsWithL, Bool.and_eq_true, beq_iff_eq] at h1 h2
    exact hab (h1.1.trans h2.1.symm)

lemma startsWithL_ne_third {a b : Char} (hab : a ≠ b) (x y : Char) (as bs l : List Char) :
    startsWithL (x :: y :: a :: as) l = true →
    startsWithL (x :: y :: b :: bs) l = true → False := by
  cases l with
  | nil => intro h1 _; simp [startsWithL] at h1
  | cons c0 l0 =>
    cases l0 with
    | nil => intro h1 _; simp [startsWithL] at h1
    | cons c1 l1 =>
      cases l1 with
      | nil => intro h1 _; simp [startsWithL] at h1
      | cons c2 l2 =>
        intro h1 h2
        simp only [startsWithL, Bool.and_eq_true, beq_iff_eq] at h1 h2
        exact hab (h1.2.2.1.trans h2.2.2.1.symm)

lemma toList_E0201 : "E0201".toList = ['E', '0', '2', '0', '1'] := rfl

lemma toList_X0201 : "X0201".toList = ['X', '0', '2', '0', '1'] := rfl

lemma toList_E0401 : "E0401".toList = ['E', '0', '4', '0', '1'] := rfl

lemma toList_X0401 : "X0401".toList = ['X', '0', '4', '0', '1'] := rfl

lemma toList_E0101 : "E0101".toList = ['E', '0', '1', '0', '1'] := rfl

lemma pyStartsWith_eq (code p : String) :
    pyStartsWith code p = startsWithL p.toList code.toList := rfl

/-- C2: classify_failure maps a code to screen_popup exactly for the
E0201/X0201 prefixes, to keyword_execution exactly for E0401/X0401, to
driver_issue exactly for E0101, and to general_error otherwise; the code
E9999_unknown classifies as general_error and handle_error performs no
recovery for it (returns false with no keyword invocation) regardless of
the context info and of the popup step outcome. -/
theorem C2_classify_failure_prefixes (code : String) :
    (classify_failure code = "screen_popup" ↔
      (pyStartsWith code "E0201" = true ∨ pyStartsWith code "X0201" = true)) ∧
    (classify_failure code = "keyword_execution" ↔
      (pyStartsWith code "E0401" = true ∨ pyStartsWith code "X0401" = true)) ∧
    (classify_failure code = "driver_issue" ↔ pyStartsWith code "E0101" = true) ∧
    (classify_failure code = "general_error" ↔
      ¬(pyStartsWith code "E0201" = true ∨ pyStartsWith code "X0201" = true ∨
        pyStartsWith code "E0401" = true ∨ pyStartsWith code "X0401" = true ∨
        pyStartsWith code "E0101" = true)) ∧
    classify_failure "E9999_unknown" = "general_error" ∧
    (∀ (kwMap : List (String × KwBehavior)) (msg : String)
       (ctx : Option ContextInfo) (popup : Except String (List Step)),
       handle_error kwMap "E9999_unknown" msg ctx popup = (false, [])) := by
  have iE2X2 : pyStartsWith code "E0201" = true → pyStartsWith code "X0201" = true → False := by
    intro h1 h2
    rw [pyStartsWith_eq, toList_E0201] at h1
    rw [pyStartsWith_eq, toList_X0201] at h2
    exact startsWithL_ne_head (by decide) _ _ _ h1 h2
  have iE4E2 : pyStartsWith code "E0401" = true → pyStartsWith code "E0201" = true → False := by
    intro h1 h2
    rw [pyStartsWith_eq, toList_E0401] at h1
    rw [pyStartsWith_eq, toList_E0201] at h2
    exact startsWithL_ne_third (by decide) _ _ _ _ _ h1 h2
  have iE4X2 : pyStartsWith code "E0401" = true → pyStartsWith code "X0201" = true → False := by
    intro h1 h2
    rw [pyStartsWith_eq, toList_E0401] at h1
    rw [pyStartsWith_eq, toList_X0201] at h2
    exact startsWithL_ne_head (by decide) _ _ _ h1 h2
  have iX4E2 : pyStartsWith code "X0401" = true → pyStartsWith code "E0201" = true → False := by
    intro h1 h2
    rw [pyStartsWith_eq, toList_X0401] at h1
    rw [pyStartsWith_eq, toList_E0201] at h2
    exact startsWithL_ne_head (by decide) _ _ _ h1 h2
  have iX4X2 : pyStartsWith code "X0401" = true → pyStartsWith code "X0201" = true → False := by
    intro h1 h2
    rw [pyStartsWith_eq, toList_X0401] at h1
    rw [pyStartsWith_eq, toList_X0201] at h2
    exact startsWithL_ne_third (by decide) _ _ _ _ _ h1 h2
  have iE1E2 : pyStartsWith code "E0101" = true → pyStartsWith code "E0201" = true → False := by
    intro h1 h2
    rw [pyStartsWith_eq, toList_E0101] at h1
    rw [pyStartsWith_eq, toList_E0201] at h2
    exact startsWithL_ne_third (by decide) _ _ _ _ _ h1 h2
  have iE1X2 : pyStartsWith code "E0101" = true → pyStartsWith code "X0201" = true → False := by
    intro h1 h2
    rw [pyStartsWith_eq, toList_E0101] at h1
    rw [pyStartsWith_eq, toList_X0201] at h2
    exact startsWithL_ne_head (by decide) _ _ _ h1 h2
  have iE1E4 : pyStartsWith code "E0101" = true → pyStartsWith code "E0401" = true → False := by
    intro h1 h2
    rw [pyStartsWith_eq, toList_E0101] at h1
    rw [pyStartsWith_eq, toList_E0401] at h2
    exact startsWithL_ne_third (by decide) _ _ _ _ _ h1 h2
  have iE1X4 : pyStartsWith code "E0101" = true → pyStartsWith code "X0401" = true → False := by
    intro h1 h2
    rw [pyStartsWith_eq, toList_E0101] at h1
    rw [pyStartsWith_eq, toList_X0401] at h2
    exact startsWithL_ne_head (by decide) _ _ _ h1 h2
  have sp : classify_failure code = "screen_popup" ↔
      (pyStartsWith code "E0201" = true ∨ pyStartsWith code "X0201" = true) := by
    constructor
    · intro h
      by_contra hc
      push_neg at hc
      simp only [Bool.not_eq_true] at hc
      cases hC : pyStartsWith code "E0401" <;> cases hD : pyStartsWith code "X0401" <;>
        cases hE : pyStartsWith code "E0101" <;> simp_all [classify_failure]
    · intro h
      have hor : (pyStartsWith code "E0201" || pyStartsWith code "X0201") = true := by
        rcases h with h | h <;> simp [h]
      simp [classify_failure, hor]
  have ke : classify_failure code = "keyword_execution" ↔
      (pyStartsWith code "E0401" = true ∨ pyStartsWith code "X0401" = true) := by
    constructor
    · intro h
      by_contra hc
      push_neg at hc
      simp only [Bool.not_eq_true] at hc
      cases hA : pyStartsWith code "E0201" <;> cases hB : pyStartsWith code "X0201" <;>
        cases hE : pyStartsWith code "E0101" <;> simp_all [classify_failure]
    · intro h
      have hE2 : pyStartsWith code "E0201" = false := by
        rcases h with h | h
        · exact Bool.eq_false_iff.mpr (fun hh => iE4E2 h hh)
        · exact Bool.eq_false_iff.mpr (fun hh => iX4E2 h hh)
      have hX2 : pyStartsWith code "X0201" = false := by
        rcases h with h | h
        · exact Bool.eq_false_iff.mpr (fun hh => iE4X2 h hh)
        · exact Bool.eq_false_iff.mpr (fun hh => iX4X2 h hh)
      have hor : (pyStartsWith code "E0401" || pyStartsWith code "X0401") = true := by
        rcases h with h | h <;> simp [h]
      simp [classify_failure, hE2, hX2, hor]
  have di : classify_failure code = "driver_issue" ↔ pyStartsWith code "E0101" = true := by
    constructor
    · intro h
      by_contra hc
      simp only [Bool.not_eq_true] at hc
      cases hA : pyStartsWith code "E0201" <;> cases hB : pyStartsWith code "X0201" <;>
        cases hC : pyStartsWith code "E0401" <;> cases hD : pyStartsWith code "X0401" <;>
        simp_all [classify_failure]
    · intro h
      have hE2 : pyStartsWith code "E0201" = false := Bool.eq_false_iff.mpr (fun hh => iE1E2 h hh)
      have hX2 : pyStartsWith code "X0201" = false := Bool.eq_false_iff.mpr (fun hh => iE1X2 h hh)
      have hE4 : pyStartsWith code "E0401" = false := Bool.eq_false_iff.mpr (fun hh => iE1E4 h hh)
      have hX4 : pyStartsWith code "X0401" = false := Bool.eq_false_iff.mpr (fun hh => iE1X4 h hh)
      simp [classify_failure, hE2, hX2, hE4, hX4, h]
  have ge : classify_failure code = "general_error" ↔
      ¬(pyStartsWith code "E0201" = true ∨ pyStartsWith code "X0201" = true ∨
        pyStartsWith code "E0401" = true ∨ pyStartsWith code "X0401" = true ∨
        pyStartsWith code "E0101" = true) := by
    constructor
    · intro h hc
      rcases hc with h1 | h1 | h1 | h1 | h1
      · have := sp.mpr (Or.inl h1); rw [h] at this; exact absurd this (by decide)
      · have := sp.mpr (Or.inr h1); rw [h] at this; exact absurd this (by decide)
      · have := ke.mpr (Or.inl h1); rw [h] at this; exact absurd this (by decide)
      · have := ke.mpr (Or.inr h1); rw [h] at this; exact absurd this (by decide)
      · have := di.mpr h1; rw [h] at this; exact absurd this (by decide)
    · intro hc
      push_neg at hc
      simp only [Bool.not_eq_true] at hc
      obtain ⟨h1, h2, h3, h4, h5⟩ := hc
      simp [classify_failure, h1, h2, h3, h4, h5]
  refine ⟨sp, ke, di, ge, by decide, ?_⟩
  intro kwMap msg ctx popup
  simp [handle_error, classify_failure, pyStartsWith, startsWithL]

/-- C9: a session registered with only private-prefixed capability
handlers (which subsumes registration with zero handlers) exposes
exactly the two reserved control tools, pause_execution and
resume_execution, in that order and nothing else. -/
theorem C9_tools_for_control_only (st : ManagerState) (session_id : String)
    (handlers : List (String × Handler))
    (h : ∀ nh ∈ handlers, pyStartsWith nh.1 "_" = true) :
    getAvailableTools (registerToolsForSession st session_id handlers) session_id =
      [pauseTool, resumeTool] := by
  have hlook : dictGet (registerToolsForSession st session_id handlers).session_tools
      session_id = some handlers := by
    simp [registerToolsForSession, dictGet_dictSet_self]
  have hf : handlers.filter (fun nh => !pyStartsWith nh.1 "_") = [] := by
    refine List.filter_eq_nil_iff.mpr ?_
    intro a ha
    simp [h a ha]
  simp [getAvailableTools, hlook, hf]

/-- Witness for C9: a fresh manager state with one session whose only
handler is private-prefixed yields exactly the two control tools. -/
theorem C9_witness :
    getAvailableTools
      (registerToolsForSession
        { configs := [], agents := [], trigger_map := [], session_tools := [] }
        "session-1"
        [("_internal", { doc := none, fn := fun _ _ => Except.ok () })])
      "session-1" = [pauseTool, resumeTool] := by
  refine C9_tools_for_control_only _ _ _ ?_
  intro nh hnh
  rw [List.mem_singleton] at hnh
  subst hnh
  rfl

/-- C10: register_agent on a disabled config is a no-op: the manager
state is unchanged, so in particular the agent name enters no trigger
list and agentsFor answers exactly as before for every trigger key. -/
theorem C10_register_disabled_noop (st : ManagerState) (name : String)
    (config : LLMAgentConfig) (h : config.enabled = false) :
    registerAgent st name config = st ∧
    (∀ trigger, agentsFor (registerAgent st name config) trigger = agentsFor st trigger) := by
  have hnoop : registerAgent st name config = st := by
    simp [registerAgent, h]
  exact ⟨hnoop, fun _ => by rw [hnoop]⟩

/-- Witness for C10: registering a concrete disabled agent on the empty
manager state leaves the state untouched. -/
theorem C10_witness :
    registerAgent { configs := [], agents := [], trigger_map := [], session_tools := [] }
      "recovery_agent" { enabled := false, trigger := "Keyword_FAIL" } =
      { configs := [], agents := [], trigger_map := [], session_tools := [] } :=
  (C10_register_disabled_noop _ _ _ rfl).1

lemma clientExecute_actions (cs : ClientState) (runResult : Except String String) :
    (clientExecute cs runResult).actions = [] := by
  cases hen : cs.enabled <;> cases hai : cs.agentInitialized <;> cases runResult <;>
    simp [clientExecute, hen, hai]

/-- C6: PydanticAIClient.execute returns a response whose actions list
is empty on every branch (the _extract_actions helper is dead code on
this path), and consequently an agent turn served by this client
produces no effects at all in the fan-out dispatcher: no capability
invocation and no pause or resume command. -/
theorem C6_client_never_emits_actions :
    (∀ (cs : ClientState) (runResult : Except String String),
      (clientExecute cs runResult).actions = []) ∧
    (∀ (st : ManagerState) (session_id agent_name : String)
       (cs : String → ClientState) (runResult : String → Except String String),
      executeAgent st (fun n => Except.ok (clientExecute (cs n) (runResult n)))
        session_id agent_name = []) := by
  refine ⟨clientExecute_actions, ?_⟩
  intro st session_id agent_name cs runResult
  have hact := clientExecute_actions (cs agent_name) (runResult agent_name)
  cases hd : dictGet st.agents agent_name with
  | none => simp [executeAgent, hd]
  | some u =>
    cases hrh : (clientExecute (cs agent_name) (runResult agent_name)).requires_human_input <;>
      simp [executeAgent, hd, hrh, hact, processActions]

lemma popupDispatchLoop_skip (kwMap : List (String × KwBehavior)) (pre rest : List Step)
    (hpre : ∀ s ∈ pre, popupStepOutcome kwMap s = none) :
    popupDispatchLoop kwMap (pre ++ rest) = popupDispatchLoop kwMap rest := by
  induction pre with
  | nil => rfl
  | cons s pre ih =>
    have hs := hpre s (by simp)
    have hrest : ∀ s' ∈ pre, popupStepOutcome kwMap s' = none :=
      fun s' h' => hpre s' (by simp [h'])
    simp only [List.cons_append, popupDispatchLoop, hs]
    exact ih hrest

lemma popupDispatchLoop_halt (kwMap : List (String × KwBehavior)) (step : Step)
    (rest : List Step) (r : Bool × List (String × JValue))
    (h : popupStepOutcome kwMap step = some r) :
    popupDispatchLoop kwMap (step :: rest) = r := by
  simp [popupDispatchLoop, h]

lemma popupDispatchLoop_true (kwMap : List (String × KwBehavior)) (steps : List Step)
    (h : (popupDispatchLoop kwMap steps).1 = true) :
    ∃ (a : String) (v : JValue) (kw : KwBehavior),
      dictGet kwMap a = some kw ∧ kw (some v) = Except.ok () ∧
      (popupDispatchLoop kwMap steps).2 = [(a, v)] := by
  induction steps with
  | nil => simp [popupDispatchLoop] at h
  | cons s rest ih =>
    cases ho : popupStepOutcome kwMap s with
    | none =>
      rw [show popupDispatchLoop kwMap (s :: rest) = popupDispatchLoop kwMap rest by
        simp [popupDispatchLoop, ho]] at h ⊢
      exact ih h
    | some r =>
      rw [popupDispatchLoop_halt kwMap s rest r ho] at h ⊢
      cases ha : s.action with
      | none => simp [popupStepOutcome, ha] at ho
      | some a =>
        by_cases hae : a = ""
        · simp [popupStepOutcome, ha, hae] at ho
        · cases hk : dictGet kwMap a with
          | none => simp [popupStepOutcome, ha, hae, hk] at ho
          | some kw =>
            cases he : dictGet s.target "element_name" with
            | none =>
              simp [popupStepOutcome, ha, hae, hk, he] at ho
              rw [← ho] at h
              simp at h
            | some v =>
              cases hr : kw (some v) with
              | ok u =>
                refine ⟨a, v, kw, hk, ?_, ?_⟩
                · rw [hr]
                · simp [popupStepOutcome, ha, hae, hk, he, hr] at ho
                  rw [← ho]
              | error e =>
                simp [popupStepOutcome, ha, hae, hk, he, hr] at ho
                rw [← ho] at h
                simp at h

/-- C1: the popup recovery scenario: error code E0201_modal_blocking, a
non-empty page-source snapshot, the popup step yielding the single
suggestion press_element with target element_name Continue, and
press_element registered, makes handle_error invoke that keyword with
the single argument Continue and return true; moreover, in general, the
dispatch loop skips every leading suggestion that is not a truthy action
present in the keyword map, and its result is decided entirely by the
first suggestion that is (first match dispatched). -/
theorem C1_popup_recovery_scenario (kwMap : List (String × KwBehavior)) (kw : KwBehavior)
    (error_message : String) (scr : Option String) (page_source : String)
    (hps : page_source ≠ "")
    (hkw : dictGet kwMap "press_element" = some kw)
    (hok : kw (some (JValue.str "Continue")) = Except.ok ()) :
    handle_error kwMap "E0201_modal_blocking" error_message
      (some { screenshot_path := scr, page_source := some page_source })
      (Except.ok [{ action := some "press_element",
                    target := [("element_name", JValue.str "Continue")] }]) =
      (true, [("press_element", JValue.str "Continue")]) ∧
    (∀ (pre rest : List Step) (step : Step) (r : Bool × List (String × JValue)),
      (∀ s ∈ pre, popupStepOutcome kwMap s = none) →
      popupStepOutcome kwMap step = some r →
      popupDispatchLoop kwMap (pre ++ step :: rest) = r) := by
  constructor
  · have hcls : classify_failure "E0201_modal_blocking" = "screen_popup" := by decide
    simp [handle_error, hcls, contextPageSource, truthyStr, hps, popupDispatchLoop,
      popupStepOutcome, dictGet, hkw, hok]
  · intro pre rest step r hpre hstep
    rw [popupDispatchLoop_skip kwMap pre _ hpre]
    exact popupDispatchLoop_halt kwMap step rest r hstep

/-- Witness for C1: a concrete keyword map with a succeeding
press_element entry, a concrete snapshot, and the concrete suggestion
list from the scenario. -/
theorem C1_witness :
    handle_error [("press_element", fun _ => Except.ok ())] "E0201_modal_blocking"
      "modal blocking the screen"
      (some { screenshot_path := some "shot.png", page_source := some "<hierarchy/>" })
      (Except.ok [{ action := some "press_element",
                    target := [("element_name", JValue.str "Continue")] }]) =
      (true, [("press_element", JValue.str "Continue")]) :=
  (C1_popup_recovery_scenario [("press_element", fun _ => Except.ok ())]
    (fun _ => Except.ok ()) "modal blocking the screen" (some "shot.png") "<hierarchy/>"
    (by decide) rfl rfl).1

/-- C5: handle_error is a total boolean-valued function (it never raises
outward, its Lean embedding returns on every input): it returns false
with no invocation when the context has no truthy page-source snapshot
and when the popup step raises (which covers both a raising inference
call and a parse failure), and whenever it returns true some suggested
action was found in the keyword map and its keyword invocation
succeeded, that invocation being the single one performed. -/
theorem C5_handle_error_never_raises (kwMap : List (String × KwBehavior))
    (code msg : String) (ctx : Option ContextInfo)
    (popup : Except String (List Step)) :
    (truthyStr (contextPageSource ctx) = false →
      handle_error kwMap code msg ctx popup = (false, [])) ∧
    (∀ e, popup = Except.error e → handle_error kwMap code msg ctx popup = (false, [])) ∧
    ((handle_error kwMap code msg ctx popup).1 = true →
      ∃ (a : String) (v : JValue) (kw : KwBehavior),
        dictGet kwMap a = some kw ∧ kw (some v) = Except.ok () ∧
        (handle_error kwMap code msg ctx popup).2 = [(a, v)]) := by
  refine ⟨?_, ?_, ?_⟩
  · intro h
    simp [handle_error, h]
  · intro e he
    rw [he]
    simp only [handle_error]
    split <;> rfl
  · intro h
    by_cases hc : (decide (classify_failure code = "screen_popup") &&
        truthyStr (contextPageSource ctx)) = true
    · cases hp : popup with
      | error e =>
        rw [hp] at h
        simp [handle_error, hc] at h
      | ok suggestions =>
        rw [hp] at h
        have hh : handle_error kwMap code msg ctx (Except.ok suggestions) =
            popupDispatchLoop kwMap suggestions := by
          simp [handle_error, hc]
        rw [hh] at h
        rw [hh]
        exact popupDispatchLoop_true kwMap suggestions h
    · have hcf := Bool.eq_false_iff.mpr hc
      simp [handle_error, hcf] at h

/-- Witness for C5: the popup step raising on a concrete input makes
handle_error return false with no invocation. -/
theorem C5_witness :
    handle_error [] "E0201_popup" "msg" none (Except.error "connection refused") =
      (false, []) :=
  (C5_handle_error_never_raises [] "E0201_popup" "msg" none
    (Except.error "connection refused")).2.1 "connection refused" rfl

lemma targetKeyPred_true (k : String) : targetKeyPred k = true := by
  simp [targetKeyPred]

/-- C7: the field-name predicate of perform_ai_action is true for every
key (the condition parses as a disjunction whose left operand is a
truthy string literal), so the selected argument is the first value of
the target dict regardless of its field name, and None when the target
dict is empty; consequently a suggestion whose action is registered is
invoked with exactly that first value. -/
theorem C7_target_predicate_always_true :
    (∀ k : String, targetKeyPred k = true) ∧
    (∀ (k : String) (v : JValue) (rest : List (String × JValue)),
      elementValue ((k, v) :: rest) = some v) ∧
    elementValue [] = none ∧
    (∀ (kwMap : List (String × KwBehavior)) (a : String) (kw : KwBehavior)
       (k : String) (v : JValue) (tgtRest : List (String × JValue)),
      a ≠ "" → dictGet kwMap a = some kw →
      aiDispatchLoop kwMap [{ action := some a, target := (k, v) :: tgtRest }] =
        [(a, some v)]) := by
  refine ⟨targetKeyPred_true, ?_, rfl, ?_⟩
  · intro k v rest
    simp [elementValue, List.filter_cons, targetKeyPred_true]
  · intro kwMap a kw k v tgtRest ha hkw
    have hev : elementValue ((k, v) :: tgtRest) = some v := by
      simp [elementValue, List.filter_cons, targetKeyPred_true]
    cases hr : kw (some v) <;>
      simp [aiDispatchLoop, ha, hkw, hev, hr]

/-- Witness for C7: a target dict whose single field name (label)
matches none of the intended aliases still has its value passed to the
registered keyword. -/
theorem C7_witness :
    aiDispatchLoop [("press_element", fun _ => Except.ok ())]
      [{ action := some "press_element", target := [("label", JValue.str "OK")] }] =
      [("press_element", some (JValue.str "OK"))] :=
  C7_target_predicate_always_true.2.2.2 [("press_element", fun _ => Except.ok ())]
    "press_element" (fun _ => Except.ok ()) "label" (JValue.str "OK") []
    (by decide) rfl

/-- C3: for a session with a registered tool map, _process_actions
handles the actions strictly in list order with no reordering and no
deduplication (the trace is the concatenation of the per-action traces,
in order), and in the three-action scenario where the middle handler
raises, the first and third are still both invoked, in that relative
order, with the middle failure recorded between them. -/
theorem C3_actions_dispatched_in_order (st : ManagerState) (session_id : String)
    (tools : List (String × Handler))
    (h : dictGet st.session_tools session_id = some tools) :
    (∀ actions : List AgentAction,
      processActions st session_id actions =
        actions.flatMap (processOneAction tools session_id)) ∧
    (∀ (A B C : AgentAction) (hA hB hC : Handler) (eB : String),
      A.tool_name ≠ "pause_execution" → A.tool_name ≠ "resume_execution" →
      B.tool_name ≠ "pause_execution" → B.tool_name ≠ "resume_execution" →
      C.tool_name ≠ "pause_execution" → C.tool_name ≠ "resume_execution" →
      dictGet tools A.tool_name = some hA →
      dictGet tools B.tool_name = some hB →
      dictGet tools C.tool_name = some hC →
      A.parameters = [] → B.parameters = [] → C.parameters = [] →
      hA.fn [] [] = Except.ok () → hB.fn [] [] = Except.error eB →
      hC.fn [] [] = Except.ok () →
      processActions st session_id [A, B, C] =
        [Effect.invoked A.tool_name [] [], Effect.invoked B.tool_name [] [],
         Effect.toolError B.tool_name eB, Effect.invoked C.tool_name [] []]) := by
  have horder : ∀ actions : List AgentAction,
      processActions st session_id actions =
        actions.flatMap (processOneAction tools session_id) := by
    intro actions
    cases actions with
    | nil => rfl
    | cons a rest => simp [processActions, h]
  refine ⟨horder, ?_⟩
  intro A B C hA hB hC eB hAp hAr hBp hBr hCp hCr hkA hkB hkC hprA hprB hprC hfA hfB hfC
  rw [horder]
  simp [processOneAction, hAp, hAr, hBp, hBr, hCp, hCr, hkA, hkB, hkC,
    hprA, hprB, hprC, getCallArgs, getCallKwargs, dictGet, hfA, hfB, hfC]

/-- Witness for C3: a concrete session with three registered tools of
which the middle one raises; the trace shows the first and third tools
both invoked, in order, around the logged middle failure. -/
theorem C3_witness :
    processActions
      { configs := [], agents := [], trigger_map := [],
        session_tools := [("sess",
          [("tap", { doc := none, fn := fun _ _ => Except.ok () }),
           ("boom", { doc := none, fn := fun _ _ => Except.error "handler raised" }),
           ("type_text", { doc := none, fn := fun _ _ => Except.ok () })])] }
      "sess"
      [{ tool_name := "tap", parameters := [] },
       { tool_name := "boom", parameters := [] },
       { tool_name := "type_text", parameters := [] }] =
      [Effect.invoked "tap" [] [], Effect.invoked "boom" [] [],
       Effect.toolError "boom" "handler raised", Effect.invoked "type_text" [] []] :=
  (C3_actions_dispatched_in_order
    { configs := [], agents := [], trigger_map := [],
      session_tools := [("sess",
        [("tap", { doc := none, fn := fun _ _ => Except.ok () }),
         ("boom", { doc := none, fn := fun _ _ => Except.error "handler raised" }),
         ("type_text", { doc := none, fn := fun _ _ => Except.ok () })])] }
    "sess"
    [("tap", { doc := none, fn := fun _ _ => Except.ok () }),
     ("boom", { doc := none, fn := fun _ _ => Except.error "handler raised" }),
     ("type_text", { doc := none, fn := fun _ _ => Except.ok () })] rfl).2
    { tool_name := "tap", parameters := [] }
    { tool_name := "boom", parameters := [] }
    { tool_name := "type_text", parameters := [] }
    _ _ _ "handler raised"
    (by decide) (by decide) (by decide) (by decide) (by decide) (by decide)
    rfl rfl rfl rfl rfl rfl rfl rfl rfl

/-- C4: with two agents registered for the matched trigger, a failing
inference call for the first agent is caught inside its own turn and
recorded as a logged agent error, the second agent is still executed and
its actions dispatched, and on_event returns its trace normally (the
embedding is a total function, so no exception propagates out of it). -/
theorem C4_agent_failure_isolated (st : ManagerState) (ev : Event)
    (inference : String → Except String AgentResponse)
    (a1 a2 sid e : String) (resp : AgentResponse)
    (htr : dictGet st.trigger_map (ev.entity_type ++ "_" ++ ev.status) = some [a1, a2])
    (hsid : eventSessionId ev.extra_session_id = some sid)
    (htools : getAvailableTools st sid ≠ [])
    (ha1 : dictGet st.agents a1 = some ())
    (ha2 : dictGet st.agents a2 = some ())
    (hi1 : inference a1 = Except.error e)
    (hi2 : inference a2 = Except.ok resp)
    (hrh : resp.requires_human_input = false) :
    executeAgent st inference sid a1 = [Effect.agentError a1 e] ∧
    onEvent st inference ev =
      Effect.agentError a1 e :: processActions st sid resp.actions := by
  have h1 : executeAgent st inference sid a1 = [Effect.agentError a1 e] := by
    simp [executeAgent, ha1, hi1]
  have h2 : executeAgent st inference sid a2 = processActions st sid resp.actions := by
    simp [executeAgent, ha2, hi2, hrh]
  refine ⟨h1, ?_⟩
  cases htl : getAvailableTools st sid with
  | nil => exact absurd htl htools
  | cons t ts =>
    simp [onEvent, htr, hsid, htl, h1, h2]

/-- Witness for C4: a concrete state with two agents on the same
trigger, the first timing out and the second succeeding with one tap
action; the tap is still invoked after the logged first-agent error. -/
theorem C4_witness :
    onEvent
      { configs := [],
        agents := [("agent1", ()), ("agent2", ())],
        trigger_map := [("Keyword_FAIL", ["agent1", "agent2"])],
        session_tools := [("sess", [("tap", { doc := none, fn := fun _ _ => Except.ok () })])] }
      (fun n => if n = "agent1" then Except.error "inference timeout"
        else Except.ok { message := "press tap",
                         actions := [{ tool_name := "tap", parameters := [] }],
                         requires_human_input := false })
      { entity_type := "Keyword", entity_id := "kw-1", name := "Press Login",
        status := "FAIL", message := "element not found",
        extra_session_id := some "sess" } =
      [Effect.agentError "agent1" "inference timeout", Effect.invoked "tap" [] []] := by
  have h := (C4_agent_failure_isolated
    { configs := [],
      agents := [("agent1", ()), ("agent2", ())],
      trigger_map := [("Keyword_FAIL", ["agent1", "agent2"])],
      session_tools := [("sess", [("tap", { doc := none, fn := fun _ _ => Except.ok () })])] }
    { entity_type := "Keyword", entity_id := "kw-1", name := "Press Login",
      status := "FAIL", message := "element not found",
      extra_session_id := some "sess" }
    (fun n => if n = "agent1" then Except.error "inference timeout"
      else Except.ok { message := "press tap",
                       actions := [{ tool_name := "tap", parameters := [] }],
                       requires_human_input := false })
    "agent1" "agent2" "sess" "inference timeout"
    { message := "press tap", actions := [{ tool_name := "tap", parameters := [] }],
      requires_human_input := false }
    rfl rfl (by decide) rfl rfl rfl rfl rfl).2
  rw [h]
  rfl

lemma rstripL_append_not_ws (front : List Char) (c : Char) (h : isPyWs c = false) :
    rstripL (front ++ [c]) = front ++ [c] := by
  simp [rstripL, List.reverse_append, List.dropWhile_cons, h]

lemma rstripL_append_ws (l : List Char) (c : Char) (h : isPyWs c = true) :
    rstripL (l ++ [c]) = rstripL l := by
  simp [rstripL, List.reverse_append, List.dropWhile_cons, h]

lemma jsonStripL_append_newline (l : List Char) :
    jsonStripL (l ++ ['\n']) = jsonStripL l := by
  simp [jsonStripL, List.reverse_append, List.dropWhile_cons,
    show isJsonWs '\n' = true from rfl]

lemma pyStripL_sandwich (c d : Char) (mid : List Char)
    (hc : isPyWs c = false) (hd : isPyWs d = false) :
    pyStripL (c :: (mid ++ [d])) = c :: (mid ++ [d]) := by
  have h1 : rstripL ((c :: mid) ++ [d]) = (c :: mid) ++ [d] :=
    rstripL_append_not_ws (c :: mid) d hd
  rw [show c :: (mid ++ [d]) = (c :: mid) ++ [d] from rfl]
  rw [pyStripL, h1]
  rw [show (c :: mid) ++ [d] = c :: (mid ++ [d]) from rfl]
  simp [List.dropWhile_cons, hc]

lemma startsWithL_self_append (p l : List Char) : startsWithL p (p ++ l) = true := by
  induction p with
  | nil => rfl
  | cons a ps ih => simp [startsWithL, ih]

lemma stripJsonFence_wrap (content : List Char) :
    stripJsonFence (fenceOpen ++ content ++ ('\n' :: fenceClose)) =
      content ++ ['\n'] := by
  have hpre : startsWithL fenceOpen (fenceOpen ++ content ++ ('\n' :: fenceClose)) = true := by
    rw [List.append_assoc]
    exact startsWithL_self_append fenceOpen (content ++ ('\n' :: fenceClose))
  have hdrop : (fenceOpen ++ content ++ ('\n' :: fenceClose)).drop 8 =
      content ++ ('\n' :: fenceClose) := by
    rw [List.append_assoc]
    rw [show (8 : Nat) = fenceOpen.length from rfl]
    exact List.drop_left fenceOpen (content ++ ('\n' :: fenceClose))
  have hshape : content ++ ('\n' :: fenceClose) = (content ++ ['\n']) ++ fenceClose := by
    simp [fenceClose]
  have hsuf : fenceClose.isSuffixOf (content ++ ('\n' :: fenceClose)) = true := by
    rw [hshape]
    exact List.isSuffixOf_iff_suffix.mpr (List.suffix_append _ _)
  have hlen : (content ++ ('\n' :: fenceClose)).length - 3 = (content ++ ['\n']).length := by
    simp [fenceClose]
  have htake : (content ++ ('\n' :: fenceClose)).take
      ((content ++ ('\n' :: fenceClose)).length - 3) = content ++ ['\n'] := by
    rw [hlen, hshape]
    exact List.take_left (content ++ ['\n']) fenceClose
  simp only [stripJsonFence, hpre, if_true, hdrop, hsuf, htake]

lemma pyStripL_wrap (content : List Char) :
    pyStripL (fenceOpen ++ content ++ ('\n' :: fenceClose)) =
      fenceOpen ++ content ++ ('\n' :: fenceClose) := by
  have hshape : fenceOpen ++ content ++ ('\n' :: fenceClose) =
      '`' :: ((['`', '`', 'j', 's', 'o', 'n', '\n'] ++ content ++ ['\n', '`', '`']) ++ ['`']) := by
    simp [fenceOpen, fenceClose]
  rw [hshape, pyStripL_sandwich '`' '`' _ rfl rfl]

lemma cleanedL_wrap (content : List Char) :
    cleanedL (wrapJsonFence content) = content ++ ['\n'] := by
  rw [show wrapJsonFence content = fenceOpen ++ content ++ ('\n' :: fenceClose) from rfl]
  rw [cleanedL, pyStripL_wrap, stripJsonFence_wrap]

lemma cleanedL_bare (content : List Char)
    (h1 : startsWithL fenceOpen (pyStripL content) = false)
    (h2 : fenceClose.isSuffixOf (pyStripL content) = false) :
    cleanedL content = pyStripL content := by
  simp [cleanedL, stripJsonFence, h1, h2]

/-- Counterexample to C8 as stated: for the inner content consisting of
a valid JSON array followed by a form feed, bare and wrapped responses
parse differently.  The bare response is stripped by str.strip(), which
removes the form feed, so json.loads sees the plain array and succeeds;
inside the fenced block the form feed survives the strip (the backtick
fences shield it) and the fence removal, and json.loads rejects it as
extra data, because its whitespace skipping covers space, tab, LF and CR
only.  The decoder here agrees with json.loads on integer arrays. -/
theorem C8_counterexample :
    extract_json_from_llm_response parseJsonIntArray ("[1]\x0c".toList) =
      Except.ok [1] ∧
    extract_json_from_llm_response parseJsonIntArray (wrapJsonFence "[1]\x0c".toList) =
      Except.error "Failed to parse JSON: Extra data" ∧
    extract_json_from_llm_response parseJsonIntArray (wrapJsonFence "[1]\x0c".toList) ≠
      extract_json_from_llm_response parseJsonIntArray ("[1]\x0c".toList) := by
  refine ⟨rfl, rfl, ?_⟩
  intro h
  rw [show extract_json_from_llm_response parseJsonIntArray
      (wrapJsonFence "[1]\x0c".toList) =
      Except.error "Failed to parse JSON: Extra data" from rfl] at h
  rw [show extract_json_from_llm_response parseJsonIntArray ("[1]\x0c".toList) =
      Except.ok [1] from rfl] at h
  exact Except.noConfusion h

/-- C8 amended: the wrapped (json-tagged fence) and bare responses have
the same parse outcome, in particular the same structured list whenever
parsing succeeds, for every decoder insensitive to surrounding JSON
whitespace (a property json.loads does have, unlike insensitivity to
the full str.strip whitespace set), provided the stripped content
carries no fence markers and the whitespace at the ends of the content
is JSON whitespace only (space, tab, LF, CR) so that both cleaning
pipelines expose the same document to the decoder. -/
theorem C8_fence_roundtrip_amended {J : Type} (jsonLoads : List Char → Except String J)
    (hws : ∀ s, parseOutcome (jsonLoads s) = parseOutcome (jsonLoads (jsonStripL s)))
    (content : List Char)
    (h1 : startsWithL fenceOpen (pyStripL content) = false)
    (h2 : fenceClose.isSuffixOf (pyStripL content) = false)
    (h3 : jsonStripL content = jsonStripL (pyStripL content)) :
    parseOutcome (extract_json_from_llm_response jsonLoads (wrapJsonFence content)) =
      parseOutcome (extract_json_from_llm_response jsonLoads content) := by
  have houtcome : ∀ raw, parseOutcome (extract_json_from_llm_response jsonLoads raw) =
      parseOutcome (jsonLoads (cleanedL raw)) := by
    intro raw
    unfold extract_json_from_llm_response
    cases hj : jsonLoads (cleanedL raw) <;> simp [parseOutcome, hj]
  rw [houtcome, houtcome, cleanedL_wrap, cleanedL_bare content h1 h2]
  rw [hws (content ++ ['\n']), jsonStripL_append_newline, h3, ← hws (pyStripL content)]

/-- Witness for the amended C8: a concrete decoder trivially insensitive
to JSON whitespace, applied to concrete content whose ends carry no
whitespace at all, so every hypothesis of the amended round-trip is
discharged at a concrete input. -/
theorem C8_witness :
    parseOutcome (extract_json_from_llm_response (fun _ =>
        (Except.ok true : Except String Bool)) (wrapJsonFence "[1, 2]".toList)) =
      parseOutcome (extract_json_from_llm_response (fun _ =>
        (Except.ok true : Except String Bool)) ("[1, 2]".toList)) :=
  C8_fence_roundtrip_amended (fun _ => Except.ok true) (fun _ => rfl)
    "[1, 2]".toList (by decide) (by decide) (by decide)
